import Mathlib

/-!
Verification of the x509 certificate builder of go-utils (package crypto,
file crypto/x509.go) against its specification.  Bytes are modelled as
natural numbers below 256, Go int64 values as integers, Go slices as lists,
and fallible Go functions as values of the Except monad.
-/

set_option maxRecDepth 4000

/-! ## Bytes, 32-bit words, and SHA-1 (crypto/sha1 of the Go standard library) -/

/-- Truncate to a 32-bit word, as Go uint32 arithmetic does. -/
def w32 (n : Nat) : Nat := n % 4294967296

/-- Rotate a 32-bit word left by k bits. -/
def rotl32 (n k : Nat) : Nat := ((n <<< k) ||| (n >>> (32 - k))) % 4294967296

/-- Big-endian bytes of a 32-bit word. -/
def be32 (n : Nat) : List Nat := [n >>> 24 % 256, n >>> 16 % 256, n >>> 8 % 256, n % 256]

/-- Big-endian bytes of a 64-bit word. -/
def be64 (n : Nat) : List Nat :=
  [n >>> 56 % 256, n >>> 48 % 256, n >>> 40 % 256, n >>> 32 % 256,
   n >>> 24 % 256, n >>> 16 % 256, n >>> 8 % 256, n % 256]

/-- SHA-1 padding: append 0x80, zero bytes up to 56 mod 64, then the bit length. -/
def sha1Pad (msg : List Nat) : List Nat :=
  msg ++ 0x80 :: List.replicate ((119 - msg.length % 64) % 64) 0 ++ be64 (msg.length * 8)

/-- Combine bytes four at a time into big-endian 32-bit words. -/
def bytesToWords : List Nat → List Nat
  | b0 :: b1 :: b2 :: b3 :: rest => (b0 <<< 24 ||| b1 <<< 16 ||| b2 <<< 8 ||| b3) :: bytesToWords rest
  | _ => []

/-- Extend the 16 block words to the 80-entry SHA-1 message schedule. -/
def sha1Extend (w : Array Nat) : Array Nat :=
  (List.range 64).foldl (fun a i =>
    a.push (rotl32 ((a[i + 13]!) ^^^ (a[i + 8]!) ^^^ (a[i + 2]!) ^^^ (a[i]!)) 1)) w

/-- SHA-1 round function, by round index. -/
def sha1F (t b c d : Nat) : Nat :=
  if t < 20 then (b &&& c) ||| ((b ^^^ 4294967295) &&& d)
  else if t < 40 then b ^^^ c ^^^ d
  else if t < 60 then (b &&& c) ||| (b &&& d) ||| (c &&& d)
  else b ^^^ c ^^^ d

/-- SHA-1 round constant, by round index. -/
def sha1K (t : Nat) : Nat :=
  if t < 20 then 0x5A827999 else if t < 40 then 0x6ED9EBA1
  else if t < 60 then 0x8F1BBCDC else 0xCA62C1D6

/-- Compress one 64-byte block into the running SHA-1 state. -/
def sha1Compress (h : Nat × Nat × Nat × Nat × Nat) (block : List Nat) :
    Nat × Nat × Nat × Nat × Nat :=
  match h with
  | (h0, h1, h2, h3, h4) =>
    let w := sha1Extend (bytesToWords block).toArray
    let res := (List.range 80).foldl (fun st t =>
      match st with
      | (a, b, c, d, e) =>
        (w32 (rotl32 a 5 + sha1F t b c d + e + sha1K t + w[t]!), a, rotl32 b 30, c, d))
      (h0, h1, h2, h3, h4)
    match res with
    | (a, b, c, d, e) => (w32 (h0 + a), w32 (h1 + b), w32 (h2 + c), w32 (h3 + d), w32 (h4 + e))

/-- Split a byte list into 64-byte chunks; the first argument is structural fuel. -/
def chunk64 : Nat → List Nat → List (List Nat)
  | _, [] => []
  | 0, bytes => [bytes]
  | fuel + 1, bytes => bytes.take 64 :: chunk64 fuel (bytes.drop 64)

/-- The SHA-1 digest of a byte list, 20 bytes. -/
def sha1 (msg : List Nat) : List Nat :=
  let padded := sha1Pad msg
  match (chunk64 padded.length padded).foldl sha1Compress
      (0x67452301, 0xEFCDAB89, 0x98BADCFE, 0x10325476, 0xC3D2E1F0) with
  | (a, b, c, d, e) => be32 a ++ be32 b ++ be32 c ++ be32 d ++ be32 e

/-! ## Errors (github.com/Laisky/errors/v2)

Go errors are modelled structurally: `errors.Errorf` builds a leaf message,
`errors.Wrap(err, ctx)` wraps a cause with a context string, and
`errors.WithStack` returns the error unchanged (the stack trace is invisible
to the caller). -/

/-- A Go error value: either a leaf message or a wrapped cause. -/
inductive GoErr where
  | msg (s : String)
  | wrap (ctx : String) (cause : GoErr)
deriving Repr, DecidableEq

/-! ## Public and private keys (crypto/rsa, crypto/ecdsa, crypto/ed25519)

Key material is abstracted as its identifying bytes; the algorithm family is
the tag Go dispatches on via type assertions. -/

/-- A Go crypto.PrivateKey value: one of the three supported concrete types,
or any other dynamic type (modelled by a tag string). -/
inductive PrivateKey where
  | rsa (material : List Nat)
  | ecdsa (material : List Nat)
  | ed25519 (material : List Nat)
  | other (tag : String)
deriving Repr, DecidableEq

/-- A Go crypto.PublicKey value. -/
inductive PublicKey where
  | rsa (material : List Nat)
  | ecdsa (material : List Nat)
  | ed25519 (material : List Nat)
  | other (tag : String)
deriving Repr, DecidableEq

/-- Privkey2Signer of crypto/x509.go: the type switch mapping a private key to
a crypto.Signer, returning nil (here none) for unsupported types. -/
def Privkey2Signer : PrivateKey → Option PrivateKey
  | .rsa m => some (.rsa m)
  | .ecdsa m => some (.ecdsa m)
  | .ed25519 m => some (.ed25519 m)
  | .other _ => none

/-- validPrikey of crypto/x509.go: errors when Privkey2Signer returns nil. -/
def validPrikey (prikey : PrivateKey) : Except GoErr Unit :=
  match Privkey2Signer prikey with
  | none => .error (.msg "not support this type of private key")
  | some _ => .ok ()

/-- Modelled from the spec: GetPubkeyFromPrikey (key material layer, not under
src/) derives the public counterpart of a private key without network or disk
access. -/
def GetPubkeyFromPrikey : PrivateKey → PublicKey
  | .rsa m => .rsa m
  | .ecdsa m => .ecdsa m
  | .ed25519 m => .ed25519 m
  | .other t => .other t

/-- Modelled from the spec: Pubkey2Der (key material layer, not under src/)
marshals a public key to its DER (PKIX) encoding; distinct keys have distinct
encodings (a family tag byte followed by the key material), and unsupported
key types fail. -/
def Pubkey2Der : PublicKey → Except GoErr (List Nat)
  | .rsa m => .ok (1 :: m)
  | .ecdsa m => .ok (2 :: m)
  | .ed25519 m => .ok (3 :: m)
  | .other _ => .error (.msg "unsupport public key type")

/-! ## X509CertSubjectKeyID (crypto/x509.go lines 1183-1192)

Go hash.Hash semantics: sha1.New() returns a hasher with no bytes written;
Write appends bytes to the hasher state; Sum(b) appends the digest of the
bytes written so far to b and does not change the hasher state.  The source
calls hasher.Sum(keyBytes) (discarding the result) and never calls Write. -/

/-- A Go sha1 hasher: the bytes written to it so far. -/
structure GoSha1Hasher where
  written : List Nat
deriving Repr, DecidableEq

/-- sha1.New(): a hasher with nothing written. -/
def GoSha1Hasher.new : GoSha1Hasher := ⟨[]⟩

/-- hash.Hash.Sum: append the digest of the written bytes to b, leaving the
hasher state unchanged. -/
def GoSha1Hasher.sum (h : GoSha1Hasher) (b : List Nat) : List Nat := b ++ sha1 h.written

/-- X509CertSubjectKeyID of crypto/x509.go: DER-encode the public key, then
call hasher.Sum(keyBytes) with the result discarded, and return
hasher.Sum(nil). -/
def X509CertSubjectKeyID (pubkey : PublicKey) : Except GoErr (List Nat) :=
  match Pubkey2Der pubkey with
  | .error e => .error (.wrap "marshal pubkeu" e)
  | .ok keyBytes =>
    let hasher := GoSha1Hasher.new
    let _ := hasher.sum keyBytes
    .ok (hasher.sum [])

/-! ## The default serial number generator (crypto/x509.go lines 261-281)

Go time.Duration is a 64-bit count of nanoseconds; time.Time.Sub returns the
difference saturated to the maximal (minimal) Duration on overflow, and
time.Since(t) is Now().Sub(t).  The zero time.Time is 0001-01-01T00:00:00 UTC,
which lies 62135596800 seconds before the Unix epoch, so for every instant at
or after the Unix epoch the difference overflows int64 nanoseconds and
time.Since(time.Time) with the zero value saturates. -/

/-- The maximal Go time.Duration, in nanoseconds. -/
def goMaxDuration : Int := 9223372036854775807

/-- Go time.Time.Sub on wall-clock instants (nanoseconds): the true difference,
saturated to the maximal or minimal Duration on int64 overflow. -/
def goTimeSub (tNs uNs : Int) : Int :=
  if goMaxDuration < tNs - uNs then goMaxDuration
  else if tNs - uNs < -goMaxDuration - 1 then -goMaxDuration - 1
  else tNs - uNs

/-- Nanoseconds from the Go zero time (0001-01-01T00:00:00 UTC) to the Unix
epoch: 62135596800 seconds. -/
def goZeroToUnixNs : Int := 62135596800000000000

/-- time.Since(time.Time with the zero value) evaluated when the wall clock
reads nowUnixNs nanoseconds after the Unix epoch. -/
def timeSinceZeroTime (nowUnixNs : Int) : Int :=
  goTimeSub (goZeroToUnixNs + nowUnixNs) 0

/-- Modelled from the spec: counter.RotateCounter (package counter, not under
src/) is a concurrency-safe counter whose successive values cycle through
the interval from 0 (inclusive) to bound (exclusive); NewRotateCounter(10000)
yields bound 10000.  One observed value of Count() is modelled as an integer
in that interval. -/
structure RotateCounter where
  bound : Int
  val : Int
deriving Repr, DecidableEq

/-- DefaultX509CertSerialNumGenerator.SerialNum of crypto/x509.go, evaluated
at wall-clock time nowUnixNs (nanoseconds since the Unix epoch) with the
rotating counter returning counterVal: computes
int64(time.Since(time.Time)/time.Millisecond*10000) + counter.Count().
Division and multiplication are Go int64 operations; the quotient here is
nonnegative and the product stays below 2 to the 63rd, so plain integer
arithmetic with truncating division is exact. -/
def DefaultSerialNum (nowUnixNs : Int) (counterVal : Int) : Int :=
  (timeSinceZeroTime nowUnixNs).tdiv 1000000 * 10000 + counterVal

/-- The serial number the specification describes: milliseconds since the
Unix epoch at the call instant, scaled by 10000, plus the rotating counter
value.  Written from the words of the spec, for comparison with
DefaultSerialNum. -/
def SpecSerialNum (nowUnixNs : Int) (counterVal : Int) : Int :=
  nowUnixNs.tdiv 1000000 * 10000 + counterVal

/-! ## Names, SANs, and the SAN classifier (crypto/x509.go lines 325-346) -/

/-- A net.IP value: its byte slice. -/
def IPAddr : Type := List Nat
deriving instance Repr, DecidableEq for IPAddr

/-- A parsed url.URL value, abstracted as the URI text it was parsed from. -/
def URIRef : Type := String
deriving instance Repr, DecidableEq for URIRef

/-- An asn1.ObjectIdentifier: a sequence of arc numbers. -/
def Oid : Type := List Nat
deriving instance Repr, DecidableEq for Oid

/-- pkix.Name, restricted to the fields the builder reads or writes. -/
structure PkixName where
  commonName : String := ""
  organization : List String := []
  organizationalUnit : List String := []
  locality : List String := []
  country : List String := []
  province : List String := []
  streetAddress : List String := []
  postalCode : List String := []
  serialNumber : String := ""
deriving Repr, DecidableEq

/-- The empty pkix.Name, as in a zero-valued option struct. -/
def PkixName.empty : PkixName := {}

/-- The standard library parsers the classifier trial-parses with:
net.ParseIP, mail.ParseAddress (returning the parsed address string), and
url.ParseRequestURI.  They are external to this repository, so parseSans is
parameterised over them. -/
structure SanClassifiers where
  parseIP : String → Option IPAddr
  parseEmail : String → Option String
  parseURI : String → Option URIRef

/-- sansTemp of crypto/x509.go: the four SAN buckets. -/
structure SansTemp where
  DNSNames : List String := []
  EmailAddresses : List String := []
  IPAddresses : List IPAddr := []
  URIs : List URIRef := []
deriving DecidableEq

/-- The loop body of parseSans of crypto/x509.go: try IP parse, then email
parse, then absolute-URI parse; the first success appends to that bucket,
and on all failures the string is appended to the DNS bucket. -/
def parseSansStep (cl : SanClassifiers) (tpl : SansTemp) (s : String) : SansTemp :=
  match cl.parseIP s with
  | some ip => { tpl with IPAddresses := tpl.IPAddresses ++ [ip] }
  | none =>
    match cl.parseEmail s with
    | some email => { tpl with EmailAddresses := tpl.EmailAddresses ++ [email] }
    | none =>
      match cl.parseURI s with
      | some uri => { tpl with URIs := tpl.URIs ++ [uri] }
      | none => { tpl with DNSNames := tpl.DNSNames ++ [s] }

/-- parseSans of crypto/x509.go: classify each string of the input in order,
starting from empty buckets. -/
def parseSans (cl : SanClassifiers) (sans : List String) : SansTemp :=
  sans.foldl (parseSansStep cl) {}

/-! ## CSR options (crypto/x509.go lines 34-210) -/

/-- x509CSROption of crypto/x509.go: the accumulated CSR builder state. -/
structure X509CSROptionState where
  err : Option GoErr := none
  subject : PkixName := {}
  dnsNames : List String := []
  emailAddresses : List String := []
  ipAddresses : List IPAddr := []
  uris : List URIRef := []
  signatureAlgorithm : Nat := 0
  publicKeyAlgorithm : Nat := 0
deriving DecidableEq

/-- The exported X509CSROption constructors of crypto/x509.go.  The option
type itself is a closure over the unexported x509CSROption struct, so outside
the package only these constructors can build option values. -/
inductive X509CSROption where
  | withX509CSRSignatureAlgorithm (sigAlg : Nat)
  | withX509CSRPublicKeyAlgorithm (pubAlg : Nat)
  | withX509CSRSubject (subject : PkixName)
  | withX509CSRCommonName (commonName : String)
  | withX509CSROrganization (organization : List String)
  | withX509CSROrganizationUnit (ou : List String)
  | withX509CSRLocality (l : List String)
  | withX509CSRCountry (values : List String)
  | withX509CSRProvince (values : List String)
  | withX509CSRStreetAddrs (addrs : List String)
  | withX509CSRPostalCode (codes : List String)
  | withX509CSRDNSNames (dnsNames : List String)
  | withX509CSREmailAddrs (emailAddresses : List String)
  | withX509CSRIPAddrs (ipAddresses : List IPAddr)
  | withX509CSRURIs (uris : List URIRef)
  | withX509CSRSANS (sans : List String)

/-- Run one X509CSROption closure on the builder state. -/
def X509CSROption.run (cl : SanClassifiers) (o : X509CSROptionState) :
    X509CSROption → Except GoErr X509CSROptionState
  | .withX509CSRSignatureAlgorithm sigAlg => .ok { o with signatureAlgorithm := sigAlg }
  | .withX509CSRPublicKeyAlgorithm pubAlg => .ok { o with publicKeyAlgorithm := pubAlg }
  | .withX509CSRSubject subject => .ok { o with subject := subject }
  | .withX509CSRCommonName commonName =>
      .ok { o with subject := { o.subject with commonName := commonName } }
  | .withX509CSROrganization organization =>
      .ok { o with subject :=
        { o.subject with organization := o.subject.organization ++ organization } }
  | .withX509CSROrganizationUnit ou =>
      .ok { o with subject :=
        { o.subject with organizationalUnit := o.subject.organizationalUnit ++ ou } }
  | .withX509CSRLocality l =>
      .ok { o with subject := { o.subject with locality := o.subject.locality ++ l } }
  | .withX509CSRCountry values =>
      .ok { o with subject := { o.subject with country := o.subject.country ++ values } }
  | .withX509CSRProvince values =>
      .ok { o with subject := { o.subject with province := o.subject.province ++ values } }
  | .withX509CSRStreetAddrs addrs =>
      .ok { o with subject :=
        { o.subject with streetAddress := o.subject.streetAddress ++ addrs } }
  | .withX509CSRPostalCode codes =>
      .ok { o with subject := { o.subject with postalCode := o.subject.postalCode ++ codes } }
  | .withX509CSRDNSNames dnsNames => .ok { o with dnsNames := o.dnsNames ++ dnsNames }
  | .withX509CSREmailAddrs emailAddresses =>
      .ok { o with emailAddresses := o.emailAddresses ++ emailAddresses }
  | .withX509CSRIPAddrs ipAddresses => .ok { o with ipAddresses := o.ipAddresses ++ ipAddresses }
  | .withX509CSRURIs uris => .ok { o with uris := o.uris ++ uris }
  | .withX509CSRSANS sans =>
      let parsedSANs := parseSans cl sans
      .ok { o with
        dnsNames := o.dnsNames ++ parsedSANs.DNSNames
        emailAddresses := o.emailAddresses ++ parsedSANs.EmailAddresses
        uris := o.uris ++ parsedSANs.URIs
        ipAddresses := o.ipAddresses ++ parsedSANs.IPAddresses }

/-- x509CSROption.fillDefault of crypto/x509.go: the identity. -/
def X509CSROptionState.fillDefault (o : X509CSROptionState) : X509CSROptionState := o

/-- The option loop shared by every applyOpts of crypto/x509.go: run the
closures in order, stopping at the first failing one. -/
def runX509CSROptions (cl : SanClassifiers) (o : X509CSROptionState) :
    List X509CSROption → Except GoErr X509CSROptionState
  | [] => .ok o
  | f :: rest =>
    match f.run cl o with
    | .error e => .error e
    | .ok o2 => runX509CSROptions cl o2 rest

/-- x509CSROption.applyOpts of crypto/x509.go: fail on a stored error, then
fold the options in order, stopping at the first failing one. -/
def X509CSROptionState.applyOpts (cl : SanClassifiers) (o : X509CSROptionState)
    (opts : List X509CSROption) : Except GoErr X509CSROptionState :=
  match o.err with
  | some e => .error e
  | none => runX509CSROptions cl o opts

/-! ## Key usage bits (crypto/x509 of the Go standard library) -/

/-- x509.KeyUsageDigitalSignature. -/
def keyUsageDigitalSignature : Nat := 1
/-- x509.KeyUsageContentCommitment. -/
def keyUsageContentCommitment : Nat := 2
/-- x509.KeyUsageKeyEncipherment. -/
def keyUsageKeyEncipherment : Nat := 4
/-- x509.KeyUsageCertSign. -/
def keyUsageCertSign : Nat := 32
/-- x509.KeyUsageCRLSign. -/
def keyUsageCRLSign : Nat := 64

/-! ## Sign-CSR options (crypto/x509.go lines 348-500) -/

/-- An X509CertSerialNumberGenerator, modelled by the (single) value its
SerialNum() method returns during one build. -/
structure SerialGen where
  num : Int
deriving Repr, DecidableEq

/-- signCSROption of crypto/x509.go: the accumulated signing state.  Times
are nanoseconds since the Unix epoch, durations are nanoseconds;
serialNumber is a big.Int pointer (none when nil); serialNumGenerator is an
interface value (none when nil). -/
structure SignCSROptionState where
  validFrom : Int := 0
  validFor : Int := 0
  isCA : Bool := false
  keyUsage : Nat := 0
  extKeyUsage : List Nat := []
  serialNumber : Option Int := none
  policies : List Oid := []
  crls : List String := []
  ocsps : List String := []
  pubkey : Option PublicKey := none
  serialNumGenerator : Option SerialGen := none
deriving DecidableEq

/-- signCSROption.fillDefault of crypto/x509.go: validFrom is the current
time, validFor 7 days, key-encipherment and digital-signature key usage bits
are OR-ed in, and the process-wide default generator is installed. -/
def SignCSROptionState.fillDefault (now : Int) (internalGen : SerialGen)
    (o : SignCSROptionState) : SignCSROptionState :=
  { o with
    validFrom := now
    validFor := 604800000000000
    keyUsage := o.keyUsage ||| (keyUsageKeyEncipherment ||| keyUsageDigitalSignature)
    serialNumGenerator := some internalGen }

/-- The exported SignCSROption constructors of crypto/x509.go.  The option
type is a closure over the unexported signCSROption struct, so outside the
package only these constructors can build option values. -/
inductive SignCSROption where
  | withX509SerialNumGenerator (gen : Option SerialGen)
  | withX509SignCSRPolicies (policies : List Oid)
  | withX509SignCSROCSPServers (ocsp : List String)
  | withX509SignCSRSeriaNumber (serialNumber : Option Int)
  | withX509SignCSRKeyUsage (usage : List Nat)
  | withX509SignCSRCRLs (crlEndpoint : List String)
  | withX509SignCSRExtKeyUsage (usage : List Nat)
  | withX509SignCSRValidFrom (validFrom : Int)
  | withX509SignCSRValidFor (validFor : Int)
  | withX509SignCSRIsCA
  | withX509SignCSRIsCRLCA

/-- Run one SignCSROption closure on the signing state. -/
def SignCSROption.run (o : SignCSROptionState) :
    SignCSROption → Except GoErr SignCSROptionState
  | .withX509SerialNumGenerator gen => .ok { o with serialNumGenerator := gen }
  | .withX509SignCSRPolicies policies => .ok { o with policies := o.policies ++ policies }
  | .withX509SignCSROCSPServers ocsp => .ok { o with ocsps := o.ocsps ++ ocsp }
  | .withX509SignCSRSeriaNumber serialNumber =>
      match serialNumber with
      | none => .error (.msg "serial number shoule not be empty")
      | some n => .ok { o with serialNumber := some n }
  | .withX509SignCSRKeyUsage usage =>
      .ok { o with keyUsage := usage.foldl (fun acc u => acc ||| u) o.keyUsage }
  | .withX509SignCSRCRLs crlEndpoint => .ok { o with crls := o.crls ++ crlEndpoint }
  | .withX509SignCSRExtKeyUsage usage => .ok { o with extKeyUsage := o.extKeyUsage ++ usage }
  | .withX509SignCSRValidFrom validFrom => .ok { o with validFrom := validFrom }
  | .withX509SignCSRValidFor validFor => .ok { o with validFor := validFor }
  | .withX509SignCSRIsCA =>
      .ok { o with isCA := true,
                   keyUsage := o.keyUsage ||| (keyUsageCertSign ||| keyUsageCRLSign) }
  | .withX509SignCSRIsCRLCA =>
      .ok { o with isCA := true, keyUsage := o.keyUsage ||| keyUsageCRLSign }

/-- The option loop of signCSROption.applyOpts of crypto/x509.go. -/
def runSignCSROptions (o : SignCSROptionState) :
    List SignCSROption → Except GoErr SignCSROptionState
  | [] => .ok o
  | f :: rest =>
    match f.run o with
    | .error e => .error e
    | .ok o2 => runSignCSROptions o2 rest

/-- signCSROption.applyOpts of crypto/x509.go: fold the options in order,
then, when no serial number was set, draw one from the configured generator.
Calling SerialNum() through a nil generator interface is a Go runtime panic,
modelled as a distinguished error (either way no certificate is emitted). -/
def SignCSROptionState.applyOpts (o : SignCSROptionState) (opts : List SignCSROption) :
    Except GoErr SignCSROptionState :=
  match runSignCSROptions o opts with
  | .error e => .error e
  | .ok o =>
    match o.serialNumber with
    | none =>
      match o.serialNumGenerator with
      | none => .error (.msg "panic: runtime error: nil pointer dereference")
      | some gen => .ok { o with serialNumber := some gen.num }
    | some _ => .ok o

/-! ## Certificates and certificate templates (crypto/x509 of the standard
library, restricted to the fields crypto/x509.go reads or writes) -/

/-- An x509.Certificate value: both parsed CA certificates and the templates
the builder assembles are of this type. -/
structure Certificate where
  signatureAlgorithm : Nat := 0
  serialNumber : Option Int := none
  subject : PkixName := {}
  notBefore : Int := 0
  notAfter : Int := 0
  keyUsage : Nat := 0
  extKeyUsage : List Nat := []
  basicConstraintsValid : Bool := false
  isCA : Bool := false
  policyIdentifiers : List Oid := []
  crlDistributionPoints : List String := []
  ocspServer : List String := []
  emailAddresses : List String := []
  dnsNames : List String := []
  ipAddresses : List IPAddr := []
  uris : List URIRef := []
  subjectKeyId : List Nat := []
deriving DecidableEq

/-- An x509.CertificateRequest parsed from DER (Der2CSR): the fields
NewX509CertByCSR reads.  A parsed CSR always carries a public key. -/
structure CSR where
  subject : PkixName := {}
  dnsNames : List String := []
  emailAddresses : List String := []
  ipAddresses : List IPAddr := []
  uris : List URIRef := []
  publicKey : PublicKey
deriving DecidableEq

/-! ## Certificate options (crypto/x509.go lines 562-866) -/

/-- x509V3CertOption of crypto/x509.go: a parent certificate plus the
embedded signCSROption and x509CSROption structs. -/
structure X509V3CertOptionState where
  parent : Option Certificate := none
  sign : SignCSROptionState := {}
  csr : X509CSROptionState := {}

/-- The exported X509CertOption constructors of crypto/x509.go.  The option
type is a closure over the unexported x509V3CertOption struct, so outside
the package only these constructors can build option values. -/
inductive X509CertOption where
  | withX509CertParent (parent : Certificate)
  | withX509CertPolicies (policies : List Oid)
  | withX509CertOCSPServers (ocsp : List String)
  | withX509CertSeriaNumber (serialNumber : Option Int)
  | withX509CertSerialNumGenerator (gen : Option SerialGen)
  | withX509CertKeyUsage (usage : List Nat)
  | withX509CertCRLs (crlEndpoint : List String)
  | withX509CertExtKeyUsage (usage : List Nat)
  | withX509CertSignatureAlgorithm (sigAlg : Nat)
  | withX509CertPublicKeyAlgorithm (pubkeyAlg : Nat)
  | withX509Subject (subject : PkixName)
  | withX509CertCommonName (commonName : String)
  | withX509CertOrganization (organization : List String)
  | withX509CertOrganizationUnit (ou : List String)
  | withX509CertLocality (l : List String)
  | withX509CertCountry (values : List String)
  | withX509CertProvince (values : List String)
  | withX509CertStreetAddrs (addrs : List String)
  | withX509CertPostalCode (codes : List String)
  | withX509CertSANS (sans : List String)
  | withX509CertDNSNames (dnsNames : List String)
  | withX509CertEmailAddrs (emailAddresses : List String)
  | withX509CertIPAddrs (ipAddresses : List IPAddr)
  | withX509CertURIs (uris : List URIRef)
  | withX509CertValidFrom (validFrom : Int)
  | withX509CertValidFor (validFor : Int)
  | withX509CertIsCA
  | withX509CertIsCRLCA
  | withX509CertPubkey (pubkey : Option PublicKey)

/-- Run one X509CertOption closure on the certificate builder state. -/
def X509CertOption.run (cl : SanClassifiers) (o : X509V3CertOptionState) :
    X509CertOption → Except GoErr X509V3CertOptionState
  | .withX509CertParent parent => .ok { o with parent := some parent }
  | .withX509CertPolicies policies =>
      .ok { o with sign := { o.sign with policies := o.sign.policies ++ policies } }
  | .withX509CertOCSPServers ocsp =>
      .ok { o with sign := { o.sign with ocsps := o.sign.ocsps ++ ocsp } }
  | .withX509CertSeriaNumber serialNumber =>
      match serialNumber with
      | none => .error (.msg "serial number shoule not be empty")
      | some n => .ok { o with sign := { o.sign with serialNumber := some n } }
  | .withX509CertSerialNumGenerator gen =>
      match gen with
      | none => .error (.msg "serial number generator shoule not be empty")
      | some g => .ok { o with sign := { o.sign with serialNumGenerator := some g } }
  | .withX509CertKeyUsage usage =>
      .ok { o with sign :=
        { o.sign with keyUsage := usage.foldl (fun acc u => acc ||| u) o.sign.keyUsage } }
  | .withX509CertCRLs crlEndpoint =>
      .ok { o with sign := { o.sign with crls := o.sign.crls ++ crlEndpoint } }
  | .withX509CertExtKeyUsage usage =>
      .ok { o with sign := { o.sign with extKeyUsage := o.sign.extKeyUsage ++ usage } }
  | .withX509CertSignatureAlgorithm sigAlg =>
      .ok { o with csr := { o.csr with signatureAlgorithm := sigAlg } }
  | .withX509CertPublicKeyAlgorithm pubkeyAlg =>
      .ok { o with csr := { o.csr with publicKeyAlgorithm := pubkeyAlg } }
  | .withX509Subject subject => .ok { o with csr := { o.csr with subject := subject } }
  | .withX509CertCommonName commonName =>
      .ok { o with csr :=
        { o.csr with subject := { o.csr.subject with commonName := commonName } } }
  | .withX509CertOrganization organization =>
      .ok { o with csr := { o.csr with subject :=
        { o.csr.subject with organization := o.csr.subject.organization ++ organization } } }
  | .withX509CertOrganizationUnit ou =>
      .ok { o with csr := { o.csr with subject :=
        { o.csr.subject with
          organizationalUnit := o.csr.subject.organizationalUnit ++ ou } } }
  | .withX509CertLocality l =>
      .ok { o with csr := { o.csr with subject :=
        { o.csr.subject with locality := o.csr.subject.locality ++ l } } }
  | .withX509CertCountry values =>
      .ok { o with csr := { o.csr with subject :=
        { o.csr.subject with country := o.csr.subject.country ++ values } } }
  | .withX509CertProvince values =>
      .ok { o with csr := { o.csr with subject :=
        { o.csr.subject with province := o.csr.subject.province ++ values } } }
  | .withX509CertStreetAddrs addrs =>
      .ok { o with csr := { o.csr with subject :=
        { o.csr.subject with streetAddress := o.csr.subject.streetAddress ++ addrs } } }
  | .withX509CertPostalCode codes =>
      .ok { o with csr := { o.csr with subject :=
        { o.csr.subject with postalCode := o.csr.subject.postalCode ++ codes } } }
  | .withX509CertSANS sans =>
      let parsedSANs := parseSans cl sans
      .ok { o with csr := { o.csr with
        dnsNames := o.csr.dnsNames ++ parsedSANs.DNSNames
        emailAddresses := o.csr.emailAddresses ++ parsedSANs.EmailAddresses
        uris := o.csr.uris ++ parsedSANs.URIs
        ipAddresses := o.csr.ipAddresses ++ parsedSANs.IPAddresses } }
  | .withX509CertDNSNames dnsNames =>
      .ok { o with csr := { o.csr with dnsNames := o.csr.dnsNames ++ dnsNames } }
  | .withX509CertEmailAddrs emailAddresses =>
      .ok { o with csr :=
        { o.csr with emailAddresses := o.csr.emailAddresses ++ emailAddresses } }
  | .withX509CertIPAddrs ipAddresses =>
      .ok { o with csr := { o.csr with ipAddresses := o.csr.ipAddresses ++ ipAddresses } }
  | .withX509CertURIs uris => .ok { o with csr := { o.csr with uris := o.csr.uris ++ uris } }
  | .withX509CertValidFrom validFrom =>
      .ok { o with sign := { o.sign with validFrom := validFrom } }
  | .withX509CertValidFor validFor =>
      .ok { o with sign := { o.sign with validFor := validFor } }
  | .withX509CertIsCA =>
      .ok { o with sign := { o.sign with
        isCA := true
        keyUsage := o.sign.keyUsage ||| (keyUsageCertSign ||| keyUsageCRLSign) } }
  | .withX509CertIsCRLCA =>
      .ok { o with sign := { o.sign with
        isCA := true
        keyUsage := o.sign.keyUsage ||| keyUsageCRLSign } }
  | .withX509CertPubkey pubkey =>
      match pubkey with
      | none => .error (.msg "pubkey is nil")
      | some p => .ok { o with sign := { o.sign with pubkey := some p } }

/-- x509V3CertOption.fillDefault of crypto/x509.go: fill the defaults of both
embedded structs. -/
def X509V3CertOptionState.fillDefault (now : Int) (internalGen : SerialGen)
    (o : X509V3CertOptionState) : X509V3CertOptionState :=
  { o with sign := o.sign.fillDefault now internalGen, csr := o.csr.fillDefault }

/-- The option loop of x509V3CertOption.applyOpts of crypto/x509.go. -/
def runX509CertOptions (cl : SanClassifiers) (o : X509V3CertOptionState) :
    List X509CertOption → Except GoErr X509V3CertOptionState
  | [] => .ok o
  | f :: rest =>
    match f.run cl o with
    | .error e => .error e
    | .ok o2 => runX509CertOptions cl o2 rest

/-- x509V3CertOption.applyOpts of crypto/x509.go: fail on a stored error,
fold the options in order, then draw a serial number from the generator when
none was set (a nil generator is a Go runtime panic, modelled as an error);
the final nil-serial re-check mirrors the Panic branch of the source and is
unreachable. -/
def X509V3CertOptionState.applyOpts (cl : SanClassifiers) (o : X509V3CertOptionState)
    (opts : List X509CertOption) : Except GoErr X509V3CertOptionState :=
  match o.csr.err with
  | some e => .error e
  | none =>
    match runX509CertOptions cl o opts with
    | .error e => .error e
    | .ok o =>
      match o.sign.serialNumber with
      | none =>
        match o.sign.serialNumGenerator with
        | none => .error (.msg "panic: runtime error: nil pointer dereference")
        | some gen =>
          .ok { o with sign := { o.sign with serialNumber := some gen.num } }
      | some _ => .ok o

/-! ## Issuance pipelines (crypto/x509.go lines 212-247, 512-560, 941-1025) -/

/-- The inputs x509.CreateCertificate signs a DER certificate from: template,
parent, embedded public key and signing key.  The standard library rejects
unsupported public key types and non-Signer keys; the emitted DER is a
function of exactly these inputs. -/
structure CreatedCert where
  tpl : Certificate
  parent : Certificate
  pubkey : PublicKey
  signer : PrivateKey
deriving DecidableEq

/-- Model of x509.CreateCertificate of the Go standard library: fails for an
unsupported public key type or a private key that is not a signer, and
otherwise records the exact inputs the DER is produced from. -/
def createCertificate (tpl parent : Certificate) (pub : PublicKey) (key : PrivateKey) :
    Except GoErr CreatedCert :=
  match Privkey2Signer key with
  | none => .error (.msg "x509: certificate private key does not implement crypto.Signer")
  | some signer =>
    match pub with
    | .other _ => .error (.msg "x509: unsupported public key type")
    | p => .ok ⟨tpl, parent, p, signer⟩

/-- The inputs x509.CreateCertificateRequest signs a DER CSR from. -/
structure CreatedCSR where
  signatureAlgorithm : Nat
  publicKeyAlgorithm : Nat
  subject : PkixName
  emailAddresses : List String
  dnsNames : List String
  ipAddresses : List IPAddr
  uris : List URIRef
  signer : PrivateKey
deriving DecidableEq

/-- NewX509CSR of crypto/x509.go: validate the private key, apply the
options, assemble the CertificateRequest template, and sign it. -/
def NewX509CSR (cl : SanClassifiers) (prikey : PrivateKey) (opts : List X509CSROption) :
    Except GoErr CreatedCSR :=
  match validPrikey prikey with
  | .error e => .error e
  | .ok () =>
    match ({} : X509CSROptionState).applyOpts cl opts with
    | .error e => .error (.wrap "apply options" e)
    | .ok opt =>
      match Privkey2Signer prikey with
      | none => .error (.wrap "create certificate" (.msg "signer is nil"))
      | some signer =>
        .ok ⟨opt.signatureAlgorithm, opt.publicKeyAlgorithm, opt.subject,
             opt.emailAddresses, opt.dnsNames, opt.ipAddresses, opt.uris, signer⟩

/-- NewX509Cert of crypto/x509.go: validate the private key, fill defaults
and apply the options, assemble the certificate template (notAfter is
validFrom plus validFor), resolve the public key (explicit override or
derived from the signing key), attach the subject key id for non-CA
templates, pick the parent (self when absent) and create the certificate. -/
def NewX509Cert (cl : SanClassifiers) (now : Int) (internalGen : SerialGen)
    (prikey : PrivateKey) (opts : List X509CertOption) : Except GoErr CreatedCert :=
  match validPrikey prikey with
  | .error e => .error e
  | .ok () =>
    match (({} : X509V3CertOptionState).fillDefault now internalGen).applyOpts cl opts with
    | .error e => .error e
    | .ok opt =>
      let tpl : Certificate :=
        { signatureAlgorithm := opt.csr.signatureAlgorithm
          serialNumber := opt.sign.serialNumber
          subject := opt.csr.subject
          notBefore := opt.sign.validFrom
          notAfter := opt.sign.validFrom + opt.sign.validFor
          keyUsage := opt.sign.keyUsage
          extKeyUsage := opt.sign.extKeyUsage
          basicConstraintsValid := true
          isCA := opt.sign.isCA
          policyIdentifiers := opt.sign.policies
          crlDistributionPoints := opt.sign.crls
          ocspServer := opt.sign.ocsps
          emailAddresses := opt.csr.emailAddresses
          dnsNames := opt.csr.dnsNames
          ipAddresses := opt.csr.ipAddresses
          uris := opt.csr.uris }
      let pubkey :=
        match opt.sign.pubkey with
        | none => GetPubkeyFromPrikey prikey
        | some p => p
      let withSkid : Except GoErr Certificate :=
        if opt.sign.isCA then
          .ok tpl
        else
          match X509CertSubjectKeyID pubkey with
          | .error e => .error (.wrap "generate cert subject key id" e)
          | .ok skid => .ok { tpl with subjectKeyId := skid }
      match withSkid with
      | .error e => .error e
      | .ok tpl =>
        let parent :=
          match opt.parent with
          | none => tpl
          | some p => p
        match createCertificate tpl parent pubkey prikey with
        | .error e => .error (.wrap "create certificate" e)
        | .ok cert => .ok cert

/-- The certificate option list NewX509CertByCSR assembles before delegating
to NewX509Cert: the CSR identity fields, the parent, the signing state, and
the conditional CA and generator options (crypto/x509.go lines 535-557). -/
def certByCSROpts (ca : Certificate) (opt : SignCSROptionState) (csr : CSR) :
    List X509CertOption :=
  [ .withX509Subject csr.subject,
    .withX509CertParent ca,
    .withX509CertValidFrom opt.validFrom,
    .withX509CertValidFor opt.validFor,
    .withX509CertPolicies opt.policies,
    .withX509CertCRLs opt.crls,
    .withX509CertOCSPServers opt.ocsps,
    .withX509CertKeyUsage [opt.keyUsage],
    .withX509CertExtKeyUsage opt.extKeyUsage,
    .withX509CertSeriaNumber opt.serialNumber,
    .withX509CertDNSNames csr.dnsNames,
    .withX509CertEmailAddrs csr.emailAddresses,
    .withX509CertIPAddrs csr.ipAddresses,
    .withX509CertURIs csr.uris,
    .withX509CertPubkey (some csr.publicKey) ]
  ++ (if opt.isCA then [X509CertOption.withX509CertIsCA] else [])
  ++ (match opt.serialNumGenerator with
      | some gen => [X509CertOption.withX509CertSerialNumGenerator (some gen)]
      | none => [])

/-- NewX509CertByCSR of crypto/x509.go: validate the private key, fill
defaults and apply the signing options, reject a parent that is not a
certificate-signing CA, decode the CSR (Der2CSR, the standard library parser,
passed as a parameter), translate the CSR identity fields and the signing
state into certificate options, and delegate to NewX509Cert. -/
def NewX509CertByCSR (cl : SanClassifiers) (der2csr : List Nat → Except GoErr CSR)
    (now : Int) (internalGen : SerialGen) (ca : Certificate) (prikey : PrivateKey)
    (csrDer : List Nat) (opts : List SignCSROption) : Except GoErr CreatedCert :=
  match validPrikey prikey with
  | .error e => .error e
  | .ok () =>
    match (({} : SignCSROptionState).fillDefault now internalGen).applyOpts opts with
    | .error e => .error (.wrap "apply options" e)
    | .ok opt =>
      if !ca.isCA || ca.keyUsage &&& keyUsageCertSign == 0 then
        .error (.msg "ca is invalid to sign cert")
      else
        match der2csr csrDer with
        | .error e => .error (.wrap "parse csr" e)
        | .ok csr =>
          NewX509Cert cl now internalGen prikey (certByCSROpts ca opt csr)

/-! ## CRL issuance (crypto/x509.go lines 898-969) -/

/-- x509CRLOption of crypto/x509.go. -/
structure X509CRLOptionState where
  signatureAlgorithm : Nat := 0
  thisUpdate : Int := 0
  nextUpdate : Int := 0
deriving DecidableEq

/-- An X509CRLOption value.  crypto/x509.go exports the option type but
defines no constructor for it, and the underlying x509CRLOption struct is
unexported, so no option value can be constructed outside the package: the
type is uninhabited. -/
inductive X509CRLOption where

/-- Run one X509CRLOption closure; there are none. -/
def X509CRLOption.run (_o : X509CRLOptionState) :
    X509CRLOption → Except GoErr X509CRLOptionState :=
  fun f => nomatch f

/-- x509CRLOption.fillDefault of crypto/x509.go: thisUpdate is the current
time, nextUpdate 30 days later. -/
def X509CRLOptionState.fillDefault (now : Int) (o : X509CRLOptionState) : X509CRLOptionState :=
  { o with thisUpdate := now, nextUpdate := now + 2592000000000000 }

/-- x509CRLOption.applyOpts of crypto/x509.go. -/
def X509CRLOptionState.applyOpts (o : X509CRLOptionState) :
    List X509CRLOption → Except GoErr X509CRLOptionState
  | [] => .ok o
  | f :: rest =>
    match f.run o with
    | .error e => .error e
    | .ok o2 => o2.applyOpts rest

/-- A pkix.RevokedCertificate entry, abstracted to its serial number and
revocation time. -/
structure RevokedCertificate where
  serialNumber : Option Int
  revocationTime : Int
deriving DecidableEq

/-- The inputs x509.CreateRevocationList signs a DER CRL from. -/
structure CreatedCRL where
  number : Int
  signatureAlgorithm : Nat
  thisUpdate : Int
  nextUpdate : Int
  revokedCertificates : List RevokedCertificate
  ca : Certificate
  signer : PrivateKey
deriving DecidableEq

/-- NewX509CRL of crypto/x509.go: validate the private key, reject a nil
serial number, fill defaults and apply the options, then build and sign the
revocation list template with the CA key. -/
def NewX509CRL (now : Int) (ca : Certificate) (prikey : PrivateKey)
    (seriaNumber : Option Int) (revokeCerts : List RevokedCertificate)
    (opts : List X509CRLOption) : Except GoErr CreatedCRL :=
  match validPrikey prikey with
  | .error e => .error e
  | .ok () =>
    match seriaNumber with
    | none => .error (.msg "seriaNumber is empty")
    | some n =>
      match (({} : X509CRLOptionState).fillDefault now).applyOpts opts with
      | .error e => .error e
      | .ok opt =>
        match Privkey2Signer prikey with
        | none => .error (.msg "x509: CRL signer is nil")
        | some signer =>
          .ok ⟨n, opt.signatureAlgorithm, opt.thisUpdate, opt.nextUpdate,
               revokeCerts, ca, signer⟩

/-! ## Concrete classifier instances

The SAN classifier of the source defers to net.ParseIP, mail.ParseAddress
and url.ParseRequestURI of the Go standard library, which are external to
this repository.  The theorems about parseSans therefore quantify over the
classifiers and take the documented behaviour of those library functions on
the relevant inputs as hypotheses; the instances below witness that those
hypotheses are satisfiable. -/

/-- Classifiers under which no string parses, for builds whose options carry
no SAN strings (the classifier is then never consulted). -/
def noSanClassifiers : SanClassifiers :=
  ⟨fun _ => none, fun _ => none, fun _ => none⟩

/-- One dotted-decimal IPv4 field: one to three digits, value at most 255,
no leading zero (as net.ParseIP rejects since Go 1.17). -/
def parseDecOctet (cs : List Char) : Option Nat :=
  if cs.length = 0 || decide (3 < cs.length) then none
  else if !(cs.all Char.isDigit) then none
  else if decide (1 < cs.length) && cs.headD '0' == '0' then none
  else
    let n := cs.foldl (fun a c => a * 10 + (c.toNat - 48)) 0
    if n ≤ 255 then some n else none

/-- Stand-in for net.ParseIP of the Go standard library: scan for the first
dot or colon; a dot selects the dotted-decimal IPv4 parse (four octets).
IPv6 text (colon first) is outside the scope of this model and maps to
none, as do strings with neither separator. -/
def goParseIP (s : String) : Option IPAddr :=
  match s.data.find? (fun c => c == '.' || c == ':') with
  | some '.' =>
    match (s.data.splitOn '.').mapM parseDecOctet with
    | some [a, b, c, d] => some [a, b, c, d]
    | _ => none
  | _ => none

/-- A character allowed in the local part of a bare address, a subset of
RFC 5322 atext plus the dot. -/
def isLocalChar (c : Char) : Bool :=
  c.isAlphanum || c == '.' || c == '_' || c == '-' || c == '+'

/-- A character allowed in a host name. -/
def isHostChar (c : Char) : Bool := c.isAlphanum || c == '.' || c == '-'

/-- Stand-in for mail.ParseAddress of the Go standard library, restricted to
bare addr-spec forms: exactly one at-sign with a nonempty local part and a
nonempty domain; the parsed address string is returned. -/
def goParseEmail (s : String) : Option String :=
  match s.data.splitOn '@' with
  | [loc, domain] =>
    if loc.length ≠ 0 && loc.all isLocalChar && domain.length ≠ 0
        && domain.all isHostChar then
      some s
    else none
  | _ => none

/-- A character allowed in a URI scheme after the first. -/
def isSchemeChar (c : Char) : Bool := c.isAlphanum || c == '+' || c == '-' || c == '.'

/-- Stand-in for url.ParseRequestURI of the Go standard library: the input
must be an absolute URI (a valid scheme followed by a colon) or begin with a
slash, and contain no control characters or spaces. -/
def goParseRequestURI (s : String) : Option URIRef :=
  if s.data.any (fun c => decide (c.toNat ≤ 32) || c.toNat == 127) then none
  else
    match s.data with
    | [] => none
    | c :: _ =>
      if c == '/' then some s
      else
        let pre := s.data.takeWhile (fun c => c != ':')
        if pre.length == s.data.length then none
        else
          match pre with
          | [] => none
          | h :: rest => if h.isAlpha && rest.all isSchemeChar then some s else none

/-- The three standard-library parsers the source consults, as one
classifier instance. -/
def goSanClassifiers : SanClassifiers := ⟨goParseIP, goParseEmail, goParseRequestURI⟩

/-! ## Theorems -/

deriving instance DecidableEq for Except

/-- General form of the failing C2 computation: at any wall-clock instant at
or after the Unix epoch, the difference to the Go zero time overflows int64
nanoseconds, time.Since saturates, and SerialNum returns the constant base
92233720368540000 plus the counter value, independent of the clock. -/
theorem DefaultSerialNum_const_of_nonneg (t c : Int) (h : 0 ≤ t) :
    DefaultSerialNum t c = 92233720368540000 + c := by
  have hgt : goMaxDuration < goZeroToUnixNs + t - 0 := by
    simp only [goMaxDuration, goZeroToUnixNs]
    omega
  simp only [DefaultSerialNum, timeSinceZeroTime, goTimeSub, if_pos hgt]
  have hdiv : Int.tdiv goMaxDuration 1000000 = 9223372036854 := by decide
  rw [hdiv]
  norm_num

/-- C1: the claim states that X509CertSubjectKeyID returns the SHA-1 digest
of the DER encoding of the public key, and that keys with distinct DER
encodings get distinct identifiers.  The source never writes the key bytes
into the hasher (hasher.Sum(keyBytes) appends the digest to keyBytes without
updating the hasher, and its result is discarded), so the function returns
the SHA-1 digest of the empty byte string for every accepted key: two RSA
keys with distinct DER encodings receive the same identifier, and neither
identifier is the digest of its DER encoding. -/
theorem X509CertSubjectKeyID_ignores_pubkey :
    Pubkey2Der (.rsa [1]) ≠ Pubkey2Der (.rsa [2]) ∧
    X509CertSubjectKeyID (.rsa [1]) = X509CertSubjectKeyID (.rsa [2]) ∧
    X509CertSubjectKeyID (.rsa [1]) = .ok (sha1 []) ∧
    Pubkey2Der (.rsa [1]) = .ok [1, 1] ∧
    X509CertSubjectKeyID (.rsa [1]) ≠ .ok (sha1 [1, 1]) := by
  refine ⟨by decide, rfl, rfl, rfl, ?_⟩
  intro h
  have h2 : sha1 [] = sha1 [1, 1] := by
    have := congrArg (fun x => match x with | .ok l => l | .error _ => []) h
    simpa [X509CertSubjectKeyID, Pubkey2Der, GoSha1Hasher.sum, GoSha1Hasher.new] using this
  revert h2
  decide

/-- Bucketwise append of two classification results. -/
def sansAppend (a b : SansTemp) : SansTemp :=
  ⟨a.DNSNames ++ b.DNSNames, a.EmailAddresses ++ b.EmailAddresses,
   a.IPAddresses ++ b.IPAddresses, a.URIs ++ b.URIs⟩

/-- One classification step starting from arbitrary buckets is the step from
empty buckets appended after them. -/
theorem parseSansStep_shift (cl : SanClassifiers) (acc : SansTemp) (s : String) :
    parseSansStep cl acc s = sansAppend acc (parseSansStep cl {} s) := by
  cases acc
  rcases h1 : cl.parseIP s with _ | ip
  · rcases h2 : cl.parseEmail s with _ | e
    · rcases h3 : cl.parseURI s with _ | u <;>
        simp [parseSansStep, sansAppend, h1, h2, h3]
    · simp [parseSansStep, sansAppend, h1, h2]
  · simp [parseSansStep, sansAppend, h1]

/-- Appending empty buckets on the right is the identity. -/
theorem sansAppend_empty_right (a : SansTemp) : sansAppend a {} = a := by
  cases a; simp [sansAppend]

/-- Bucketwise append is associative. -/
theorem sansAppend_assoc (a b c : SansTemp) :
    sansAppend (sansAppend a b) c = sansAppend a (sansAppend b c) := by
  cases a; cases b; cases c; simp [sansAppend]

/-- The classification loop over any accumulator splits off the accumulator. -/
theorem parseSans_foldl_shift (cl : SanClassifiers) (l : List String) :
    ∀ acc : SansTemp, l.foldl (parseSansStep cl) acc = sansAppend acc (parseSans cl l) := by
  induction l with
  | nil => intro acc; simp [parseSans, sansAppend_empty_right]
  | cons s l ih =>
    intro acc
    simp only [List.foldl_cons, parseSans] at *
    rw [ih (parseSansStep cl acc s), parseSansStep_shift cl acc s,
        ih (parseSansStep cl {} s), sansAppend_assoc]

/-- C2: the claim states that SerialNum() returns the milliseconds since the
Unix epoch at the call instant, times 10000, plus the rotating counter.  The
source computes time.Since of the zero time.Time, which saturates at the
maximal Duration, so the time-derived base is the constant 92233720368540000
at every instant: evaluated at 2024-01-01T00:00:00Z (1704067200000000000 ns
since the epoch) with counter value 0, the code returns 92233720368540000
while the specified formula gives 17040672000000000, and the value at the
epoch itself is the same as at 2024. -/
theorem DefaultSerialNum_saturated_constant :
    DefaultSerialNum 1704067200000000000 0 = 92233720368540000 ∧
    DefaultSerialNum 1704067200000000000 9999 = 92233720368540000 + 9999 ∧
    SpecSerialNum 1704067200000000000 0 = 17040672000000000 ∧
    DefaultSerialNum 1704067200000000000 0 ≠ SpecSerialNum 1704067200000000000 0 ∧
    DefaultSerialNum 0 0 = DefaultSerialNum 1704067200000000000 0 := by
  refine ⟨?_, ?_, by decide, ?_, ?_⟩
  · simpa using DefaultSerialNum_const_of_nonneg 1704067200000000000 0 (by norm_num)
  · exact DefaultSerialNum_const_of_nonneg 1704067200000000000 9999 (by norm_num)
  · rw [DefaultSerialNum_const_of_nonneg 1704067200000000000 0 (by norm_num)]
    decide
  · rw [DefaultSerialNum_const_of_nonneg 0 0 le_rfl,
        DefaultSerialNum_const_of_nonneg 1704067200000000000 0 (by norm_num)]


/-- C3: parseSans classifies each string into exactly one bucket by trying,
in order, IP parse, email parse, absolute-URI parse, the first success
winning, with DNS as the fallback; classification distributes over list
append; and on the four example strings, given the documented behaviour of
the Go standard-library parsers on them, the result is exactly one IP, one
email, one URI and one DNS entry. -/
theorem parseSans_first_success_classification :
    (∀ (cl : SanClassifiers) (s : String),
      parseSans cl [s] =
        match cl.parseIP s with
        | some ip => { IPAddresses := [ip] }
        | none =>
          match cl.parseEmail s with
          | some e => { EmailAddresses := [e] }
          | none =>
            match cl.parseURI s with
            | some u => { URIs := [u] }
            | none => { DNSNames := [s] }) ∧
    (∀ (cl : SanClassifiers) (xs ys : List String),
      parseSans cl (xs ++ ys) = sansAppend (parseSans cl xs) (parseSans cl ys)) ∧
    (∀ (cl : SanClassifiers) (ip : IPAddr) (e : String) (u : URIRef),
      cl.parseIP "192.0.2.1" = some ip →
      cl.parseIP "a@b.com" = none →
      cl.parseEmail "a@b.com" = some e →
      cl.parseIP "https://example.com/x" = none →
      cl.parseEmail "https://example.com/x" = none →
      cl.parseURI "https://example.com/x" = some u →
      cl.parseIP "example.com" = none →
      cl.parseEmail "example.com" = none →
      cl.parseURI "example.com" = none →
      parseSans cl ["192.0.2.1", "a@b.com", "https://example.com/x", "example.com"] =
        { DNSNames := ["example.com"], EmailAddresses := [e],
          IPAddresses := [ip], URIs := [u] }) := by
  refine ⟨?_, ?_, ?_⟩
  · intro cl s
    rcases h1 : cl.parseIP s with _ | ip
    · rcases h2 : cl.parseEmail s with _ | e
      · rcases h3 : cl.parseURI s with _ | u <;>
          simp [parseSans, parseSansStep, h1, h2, h3]
      · simp [parseSans, parseSansStep, h1, h2]
    · simp [parseSans, parseSansStep, h1]
  · intro cl xs ys
    show (xs ++ ys).foldl (parseSansStep cl) {} = _
    rw [List.foldl_append,
        parseSans_foldl_shift cl ys (List.foldl (parseSansStep cl) ({} : SansTemp) xs)]
    rfl
  · intro cl ip e u h1 h2 h3 h4 h5 h6 h7 h8 h9
    simp [parseSans, parseSansStep, h1, h2, h3, h4, h5, h6, h7, h8, h9]

/-- Witness for C3: the standard-library parser stand-ins satisfy the nine
parse hypotheses, and the example list classifies into one entry per
bucket. -/
theorem parseSans_first_success_classification_witness :
    parseSans goSanClassifiers
        ["192.0.2.1", "a@b.com", "https://example.com/x", "example.com"] =
      { DNSNames := ["example.com"], EmailAddresses := ["a@b.com"],
        IPAddresses := [[192, 0, 2, 1]], URIs := ["https://example.com/x"] } :=
  parseSans_first_success_classification.2.2 goSanClassifiers [192, 0, 2, 1]
    "a@b.com" "https://example.com/x"
    (by decide) (by decide) (by decide) (by decide) (by decide)
    (by decide) (by decide) (by decide) (by decide)

/-- C6: NewX509CRL fails whenever the explicit serial number argument is nil,
for every CA certificate, private key, revocation list and option list; a
certificate serial number, by contrast, may be omitted entirely and is then
drawn from the serial number generator. -/
theorem NewX509CRL_requires_serial :
    (∀ (now : Int) (ca : Certificate) (prikey : PrivateKey)
        (revoked : List RevokedCertificate) (opts : List X509CRLOption),
      ∃ e, NewX509CRL now ca prikey none revoked opts = .error e) ∧
    (∀ (cl : SanClassifiers) (now : Int) (g : SerialGen) (m : List Nat),
      ∃ cc, NewX509Cert cl now g (.rsa m) [] = .ok cc ∧
        cc.tpl.serialNumber = some g.num) := by
  constructor
  · intro now ca prikey revoked opts
    cases prikey with
    | rsa m => exact ⟨_, rfl⟩
    | ecdsa m => exact ⟨_, rfl⟩
    | ed25519 m => exact ⟨_, rfl⟩
    | other t => exact ⟨_, rfl⟩
  · intro cl now g m
    exact ⟨_, rfl, rfl⟩

/-- C7: with no overriding options, NewX509Cert uses the defaults: notBefore
is the build instant, notAfter is notBefore plus 7 days, the key usage is
exactly key encipherment plus digital signature (so it includes both), and
the serial number is drawn from the supplied (default) generator. -/
theorem NewX509Cert_defaults (cl : SanClassifiers) (now : Int) (g : SerialGen)
    (prikey : PrivateKey) (sk : PrivateKey) (h : Privkey2Signer prikey = some sk) :
    ∃ cc, NewX509Cert cl now g prikey [] = .ok cc ∧
      cc.tpl.notBefore = now ∧
      cc.tpl.notAfter = now + 604800000000000 ∧
      cc.tpl.keyUsage = keyUsageKeyEncipherment ||| keyUsageDigitalSignature ∧
      cc.tpl.serialNumber = some g.num := by
  cases prikey with
  | rsa m => exact ⟨_, rfl, rfl, rfl, rfl, rfl⟩
  | ecdsa m => exact ⟨_, rfl, rfl, rfl, rfl, rfl⟩
  | ed25519 m => exact ⟨_, rfl, rfl, rfl, rfl, rfl⟩
  | other t => exact absurd h (by simp [Privkey2Signer])

/-- Witness for C7: the defaults hold for a concrete RSA build. -/
theorem NewX509Cert_defaults_witness :
    ∃ cc, NewX509Cert noSanClassifiers 0 ⟨7⟩ (.rsa [1]) [] = .ok cc ∧
      cc.tpl.notBefore = 0 ∧
      cc.tpl.notAfter = 0 + 604800000000000 ∧
      cc.tpl.keyUsage = keyUsageKeyEncipherment ||| keyUsageDigitalSignature ∧
      cc.tpl.serialNumber = some (7 : Int) :=
  NewX509Cert_defaults noSanClassifiers 0 ⟨7⟩ (.rsa [1]) (.rsa [1]) rfl

/-- Bitwise or on Nat is idempotent. -/
theorem nat_lor_self (a : Nat) : a ||| a = a := by
  apply Nat.eq_of_testBit_eq
  intro i
  simp [Nat.testBit_or]

/-- C8: the add-key-usage option OR-merges every supplied value into the
accumulated usage (so a sequence of such options adds the OR of all supplied
values to whatever was there before), application of two such options
commutes, applying the same one twice equals applying it once, and a build
that adds CertSign and then CRLSign ends with the OR of both on top of the
defaults. -/
theorem WithX509CertKeyUsage_accumulates :
    (∀ (cl : SanClassifiers) (o : X509V3CertOptionState) (us1 us2 : List Nat),
      runX509CertOptions cl o
          [.withX509CertKeyUsage us1, .withX509CertKeyUsage us2] =
        .ok { o with sign := { o.sign with
          keyUsage := (us1 ++ us2).foldl (fun acc u => acc ||| u) o.sign.keyUsage } }) ∧
    (∀ (cl : SanClassifiers) (o : X509V3CertOptionState) (a b : Nat),
      runX509CertOptions cl o [.withX509CertKeyUsage [a], .withX509CertKeyUsage [b]] =
      runX509CertOptions cl o [.withX509CertKeyUsage [b], .withX509CertKeyUsage [a]]) ∧
    (∀ (cl : SanClassifiers) (o : X509V3CertOptionState) (a : Nat),
      runX509CertOptions cl o [.withX509CertKeyUsage [a], .withX509CertKeyUsage [a]] =
      runX509CertOptions cl o [.withX509CertKeyUsage [a]]) ∧
    (∀ (cl : SanClassifiers) (now : Int) (g : SerialGen) (m : List Nat),
      ∃ cc, NewX509Cert cl now g (.rsa m)
          [.withX509CertKeyUsage [keyUsageCertSign],
           .withX509CertKeyUsage [keyUsageCRLSign]] = .ok cc ∧
        cc.tpl.keyUsage =
          ((keyUsageKeyEncipherment ||| keyUsageDigitalSignature) ||| keyUsageCertSign)
            ||| keyUsageCRLSign) := by
  refine ⟨?_, ?_, ?_, ?_⟩
  · intro cl o us1 us2
    simp [runX509CertOptions, X509CertOption.run, List.foldl_append]
  · intro cl o a b
    simp only [runX509CertOptions, X509CertOption.run, List.foldl]
    rw [Nat.lor_assoc, Nat.lor_assoc, Nat.lor_comm a b]
  · intro cl o a
    simp only [runX509CertOptions, X509CertOption.run, List.foldl]
    rw [Nat.lor_assoc, nat_lor_self]
  · intro cl now g m
    exact ⟨_, rfl, rfl⟩

/-- A successful createCertificate embeds exactly the template and public
key it was given. -/
theorem createCertificate_ok_shape (tpl parent : Certificate) (pub : PublicKey)
    (key : PrivateKey) (cc : CreatedCert)
    (h : createCertificate tpl parent pub key = .ok cc) :
    cc.tpl = tpl ∧ cc.pubkey = pub := by
  unfold createCertificate at h
  split at h
  · exact absurd h (by simp)
  · split at h
    · exact absurd h (by simp)
    all_goals (cases h; exact ⟨rfl, rfl⟩)

/-- Shape of a successful NewX509Cert: the applied option state exists and
the emitted certificate takes its subject, SAN lists, CA flag, key usage and
serial number from it, and its public key from the explicit override or the
signing key. -/
theorem NewX509Cert_ok_shape (cl : SanClassifiers) (now : Int) (g : SerialGen)
    (prikey : PrivateKey) (opts : List X509CertOption) (cc : CreatedCert)
    (h : NewX509Cert cl now g prikey opts = .ok cc) :
    ∃ opt, (({} : X509V3CertOptionState).fillDefault now g).applyOpts cl opts = .ok opt ∧
      cc.tpl.subject = opt.csr.subject ∧
      cc.tpl.dnsNames = opt.csr.dnsNames ∧
      cc.tpl.emailAddresses = opt.csr.emailAddresses ∧
      cc.tpl.ipAddresses = opt.csr.ipAddresses ∧
      cc.tpl.uris = opt.csr.uris ∧
      cc.tpl.isCA = opt.sign.isCA ∧
      cc.tpl.keyUsage = opt.sign.keyUsage ∧
      cc.tpl.serialNumber = opt.sign.serialNumber ∧
      cc.pubkey = (match opt.sign.pubkey with
                   | none => GetPubkeyFromPrikey prikey
                   | some p => p) := by
  unfold NewX509Cert at h
  split at h
  · exact absurd h (by simp)
  · split at h
    · exact absurd h (by simp)
    · rename_i opt heq
      refine ⟨opt, heq, ?_⟩
      dsimp only [] at h
      split at h
      · exact absurd h (by simp)
      · rename_i tpl hskid
        split at h
        · exact absurd h (by simp)
        · rename_i cert hcert
          obtain ⟨h1, h2⟩ := createCertificate_ok_shape _ _ _ _ _ hcert
          cases h
          rw [h1, h2]
          split at hskid
          · cases hskid
            exact ⟨rfl, rfl, rfl, rfl, rfl, rfl, rfl, rfl, rfl⟩
          · split at hskid
            · exact absurd hskid (by simp)
            · cases hskid
              exact ⟨rfl, rfl, rfl, rfl, rfl, rfl, rfl, rfl, rfl⟩

/-- Applying the option list NewX509CertByCSR assembles leaves exactly the
CSR identity fields in the option state: subject, SAN lists and public key
come from the CSR, whatever the signing state holds. -/
theorem certByCSROpts_identity (cl : SanClassifiers) (now : Int) (g : SerialGen)
    (ca : Certificate) (opt : SignCSROptionState) (csr : CSR) (o2 : X509V3CertOptionState)
    (h : (({} : X509V3CertOptionState).fillDefault now g).applyOpts cl
        (certByCSROpts ca opt csr) = .ok o2) :
    o2.csr.subject = csr.subject ∧
    o2.csr.dnsNames = csr.dnsNames ∧
    o2.csr.emailAddresses = csr.emailAddresses ∧
    o2.csr.ipAddresses = csr.ipAddresses ∧
    o2.csr.uris = csr.uris ∧
    o2.sign.pubkey = some csr.publicKey := by
  cases hsn : opt.serialNumber with
  | none =>
    exfalso
    simp [certByCSROpts, X509V3CertOptionState.applyOpts, runX509CertOptions,
          X509CertOption.run, hsn, X509V3CertOptionState.fillDefault,
          SignCSROptionState.fillDefault, X509CSROptionState.fillDefault] at h
  | some sn =>
    cases hca : opt.isCA <;> cases hg : opt.serialNumGenerator <;>
      simp only [certByCSROpts, X509V3CertOptionState.applyOpts, runX509CertOptions,
            X509CertOption.run, hsn, hca, hg, X509V3CertOptionState.fillDefault,
            SignCSROptionState.fillDefault, X509CSROptionState.fillDefault,
            List.append_nil, List.nil_append, List.cons_append, List.append_assoc] at h <;>
      simp only [Except.ok.injEq] at h <;>
      subst h <;>
      simp

/-- C4: every certificate NewX509CertByCSR emits takes its subject, its four
SAN lists and its embedded public key exactly from the decoded CSR, whatever
signing options the caller supplies (no signing option can set or override
these identity fields). -/
theorem NewX509CertByCSR_csr_identity (cl : SanClassifiers)
    (der2csr : List Nat → Except GoErr CSR) (now : Int) (g : SerialGen)
    (ca : Certificate) (prikey : PrivateKey) (csrDer : List Nat)
    (opts : List SignCSROption) (cc : CreatedCert)
    (h : NewX509CertByCSR cl der2csr now g ca prikey csrDer opts = .ok cc) :
    ∃ csr, der2csr csrDer = .ok csr ∧
      cc.tpl.subject = csr.subject ∧
      cc.tpl.dnsNames = csr.dnsNames ∧
      cc.tpl.emailAddresses = csr.emailAddresses ∧
      cc.tpl.ipAddresses = csr.ipAddresses ∧
      cc.tpl.uris = csr.uris ∧
      cc.pubkey = csr.publicKey := by
  unfold NewX509CertByCSR at h
  split at h
  · exact absurd h (by simp)
  · split at h
    · exact absurd h (by simp)
    · rename_i opt hopt
      split at h
      · exact absurd h (by simp)
      · split at h
        · exact absurd h (by simp)
        · rename_i csr hcsr
          obtain ⟨o2, ho2, h1, h2, h3, h4, h5, hca2, hku, hsn2, hpk⟩ :=
            NewX509Cert_ok_shape _ _ _ _ _ _ h
          obtain ⟨e1, e2, e3, e4, e5, e6⟩ := certByCSROpts_identity _ _ _ _ _ _ _ ho2
          refine ⟨csr, hcsr, ?_, ?_, ?_, ?_, ?_, ?_⟩
          · rw [h1, e1]
          · rw [h2, e2]
          · rw [h3, e3]
          · rw [h4, e4]
          · rw [h5, e5]
          · rw [hpk, e6]

/-- The CSR of the fidelity example: common name leaf, DNS SAN leaf.example,
its own RSA public key. -/
def csrLeaf : CSR :=
  { subject := { commonName := "leaf" }, dnsNames := ["leaf.example"],
    publicKey := .rsa [9] }

/-- A parent certificate whose CA flag and cert-sign usage are set. -/
def caCertW : Certificate := { isCA := true, keyUsage := keyUsageCertSign }

/-- Witness for C4: signing the example CSR with a concrete CA and key
produces a certificate carrying exactly the CSR subject, DNS SAN list and
public key. -/
theorem NewX509CertByCSR_csr_identity_witness :
    ∃ cc, NewX509CertByCSR noSanClassifiers (fun _ => .ok csrLeaf) 0 ⟨3⟩ caCertW
        (.rsa [1]) [] [] = .ok cc ∧
      cc.tpl.subject = csrLeaf.subject ∧
      cc.tpl.dnsNames = ["leaf.example"] ∧
      cc.pubkey = .rsa [9] := by
  obtain ⟨cc, hcc⟩ : ∃ cc, NewX509CertByCSR noSanClassifiers (fun _ => .ok csrLeaf) 0 ⟨3⟩
      caCertW (.rsa [1]) [] [] = .ok cc := ⟨_, rfl⟩
  obtain ⟨csr, hcsr, h1, h2, _, _, _, h6⟩ :=
    NewX509CertByCSR_csr_identity _ _ _ _ _ _ _ _ cc hcc
  have hc : csrLeaf = csr := by injection hcsr
  subst hc
  exact ⟨cc, hcc, h1, h2, h6⟩

/-- The leaf error messages a certificate option closure can produce. -/
def certOptErrMsgs : List String :=
  ["serial number shoule not be empty",
   "serial number generator shoule not be empty",
   "pubkey is nil"]

/-- The leaf error messages NewX509Cert can return unwrapped, beyond the
private-key validation message: option errors and the modelled panic. -/
def certRawMsgs : List String :=
  certOptErrMsgs ++ ["panic: runtime error: nil pointer dereference"]

/-- A failing validPrikey means the key has no signer, with the fixed
message. -/
theorem validPrikey_error (p : PrivateKey) (e : GoErr) (h : validPrikey p = .error e) :
    Privkey2Signer p = none ∧ e = .msg "not support this type of private key" := by
  unfold validPrikey at h
  split at h
  · rename_i heq
    cases h
    exact ⟨heq, rfl⟩
  · exact absurd h (by simp)

/-- Every error a certificate option closure returns is one of three fixed
leaf messages. -/
theorem X509CertOption_run_error (cl : SanClassifiers) (o : X509V3CertOptionState)
    (f : X509CertOption) (e : GoErr) (h : f.run cl o = .error e) :
    ∃ s, e = .msg s ∧ s ∈ certOptErrMsgs := by
  cases f
  case withX509CertSeriaNumber sn =>
    cases sn
    · simp only [X509CertOption.run] at h
      cases h
      exact ⟨_, rfl, by simp [certOptErrMsgs]⟩
    · exact absurd h (by simp [X509CertOption.run])
  case withX509CertSerialNumGenerator gn =>
    cases gn
    · simp only [X509CertOption.run] at h
      cases h
      exact ⟨_, rfl, by simp [certOptErrMsgs]⟩
    · exact absurd h (by simp [X509CertOption.run])
  case withX509CertPubkey pk =>
    cases pk
    · simp only [X509CertOption.run] at h
      cases h
      exact ⟨_, rfl, by simp [certOptErrMsgs]⟩
    · exact absurd h (by simp [X509CertOption.run])
  all_goals exact absurd h (by simp [X509CertOption.run])

/-- Every error of the certificate option loop is an option error. -/
theorem runX509CertOptions_error (cl : SanClassifiers) :
    ∀ (opts : List X509CertOption) (o : X509V3CertOptionState) (e : GoErr),
    runX509CertOptions cl o opts = .error e → ∃ s, e = .msg s ∧ s ∈ certOptErrMsgs := by
  intro opts
  induction opts with
  | nil => intro o e h; exact absurd h (by simp [runX509CertOptions])
  | cons f rest ih =>
    intro o e h
    unfold runX509CertOptions at h
    split at h
    · rename_i e2 heq
      cases h
      exact X509CertOption_run_error _ _ _ _ heq
    · exact ih _ _ h

/-- Every error of the full certificate option application, starting from a
state with no stored error, is an option error or the modelled panic. -/
theorem X509V3applyOpts_error (cl : SanClassifiers) (o : X509V3CertOptionState)
    (opts : List X509CertOption) (e : GoErr) (hno : o.csr.err = none)
    (h : o.applyOpts cl opts = .error e) :
    ∃ s, e = .msg s ∧ s ∈ certRawMsgs := by
  unfold X509V3CertOptionState.applyOpts at h
  split at h
  · rename_i e2 heq
    rw [hno] at heq
    exact absurd heq (by simp)
  · split at h
    · rename_i e2 heq
      cases h
      obtain ⟨s, hs1, hs2⟩ := runX509CertOptions_error cl opts o _ heq
      exact ⟨s, hs1, by simp [certRawMsgs, hs2]⟩
    · rename_i o2 heq
      split at h
      · split at h
        · cases h
          exact ⟨_, rfl, by simp [certRawMsgs]⟩
        · exact absurd h (by simp)
      · exact absurd h (by simp)

/-- Every error NewX509Cert returns is the private-key validation message
(for a key without a signer), a wrapped error, or a raw option or panic
message. -/
theorem NewX509Cert_error_shape (cl : SanClassifiers) (now : Int) (g : SerialGen)
    (prikey : PrivateKey) (opts : List X509CertOption) (e : GoErr)
    (h : NewX509Cert cl now g prikey opts = .error e) :
    (Privkey2Signer prikey = none ∧ e = .msg "not support this type of private key") ∨
    (∃ ctx cause, e = .wrap ctx cause) ∨
    (∃ s, e = .msg s ∧ s ∈ certRawMsgs) := by
  unfold NewX509Cert at h
  split at h
  · rename_i heq
    cases h
    exact Or.inl (validPrikey_error _ _ heq)
  · split at h
    · rename_i heq
      cases h
      exact Or.inr (Or.inr (X509V3applyOpts_error _ _ _ _ rfl heq))
    · rename_i opt heq
      dsimp only [] at h
      split at h
      · rename_i e2 heq2
        cases h
        split at heq2
        · exact absurd heq2 (by simp)
        · split at heq2
          · cases heq2
            exact Or.inr (Or.inl ⟨_, _, rfl⟩)
          · exact absurd heq2 (by simp)
      · rename_i tpl heq2
        split at h
        · cases h
          exact Or.inr (Or.inl ⟨_, _, rfl⟩)
        · exact absurd h (by simp)

/-- The only error a sign-CSR option closure can produce is the nil serial
number message. -/
theorem SignCSROption_run_error (o : SignCSROptionState) (f : SignCSROption) (e : GoErr)
    (h : f.run o = .error e) : e = .msg "serial number shoule not be empty" := by
  cases f
  case withX509SignCSRSeriaNumber sn =>
    cases sn
    · simp only [SignCSROption.run] at h
      cases h
      rfl
    · exact absurd h (by simp [SignCSROption.run])
  all_goals exact absurd h (by simp [SignCSROption.run])

/-- Every error of the sign-CSR option loop is the nil serial message. -/
theorem runSignCSROptions_error :
    ∀ (opts : List SignCSROption) (o : SignCSROptionState) (e : GoErr),
    runSignCSROptions o opts = .error e → e = .msg "serial number shoule not be empty" := by
  intro opts
  induction opts with
  | nil => intro o e h; exact absurd h (by simp [runSignCSROptions])
  | cons f rest ih =>
    intro o e h
    unfold runSignCSROptions at h
    split at h
    · rename_i e2 heq
      cases h
      exact SignCSROption_run_error _ _ _ heq
    · exact ih _ _ h

/-- Every error of the sign-CSR option application is the nil serial message
or the modelled panic. -/
theorem signApplyOpts_error (o : SignCSROptionState) (opts : List SignCSROption) (e : GoErr)
    (h : o.applyOpts opts = .error e) :
    e = .msg "serial number shoule not be empty" ∨
    e = .msg "panic: runtime error: nil pointer dereference" := by
  unfold SignCSROptionState.applyOpts at h
  split at h
  · rename_i e2 heq
    cases h
    exact Or.inl (runSignCSROptions_error _ _ _ heq)
  · rename_i o2 heq
    split at h
    · split at h
      · cases h
        exact Or.inr rfl
      · exact absurd h (by simp)
    · exact absurd h (by simp)

/-- C5: NewX509CertByCSR fails (and emits nothing) whenever the parent
certificate has its CA flag unset or lacks the certificate-signing key usage
bit; and for every parent with the CA flag and CertSign set, the CA
validation check passes: the function can never return its error. -/
theorem NewX509CertByCSR_ca_validation (cl : SanClassifiers)
    (der2csr : List Nat → Except GoErr CSR) (now : Int) (g : SerialGen)
    (ca : Certificate) (prikey : PrivateKey) (csrDer : List Nat)
    (opts : List SignCSROption) :
    ((ca.isCA = false ∨ ca.keyUsage &&& keyUsageCertSign = 0) →
      ∃ e, NewX509CertByCSR cl der2csr now g ca prikey csrDer opts = .error e) ∧
    (ca.isCA = true → ca.keyUsage &&& keyUsageCertSign ≠ 0 →
      NewX509CertByCSR cl der2csr now g ca prikey csrDer opts ≠
        .error (.msg "ca is invalid to sign cert")) := by
  constructor
  · intro hbad
    unfold NewX509CertByCSR
    cases hv : validPrikey prikey with
    | error e0 => exact ⟨e0, rfl⟩
    | ok u =>
      cases u
      cases ho : (({} : SignCSROptionState).fillDefault now g).applyOpts opts with
      | error e0 => exact ⟨_, rfl⟩
      | ok opt =>
        have hcond : (!ca.isCA || ca.keyUsage &&& keyUsageCertSign == 0) = true := by
          rcases hbad with hf | h0
          · simp [hf]
          · simp [h0]
        refine ⟨.msg "ca is invalid to sign cert", ?_⟩
        dsimp only []
        rw [if_pos hcond]
  · intro h1 h2 hbad
    unfold NewX509CertByCSR at hbad
    split at hbad
    · rename_i heq
      obtain ⟨_, he⟩ := validPrikey_error _ _ heq
      rw [he] at hbad
      simp at hbad
    · split at hbad
      · simp at hbad
      · split at hbad
        · rename_i hc
          rw [h1] at hc
          simp at hc
          exact h2 hc
        · split at hbad
          · simp at hbad
          · rcases NewX509Cert_error_shape _ _ _ _ _ _ hbad with
              ⟨_, he⟩ | ⟨ctx, cause, he⟩ | ⟨s, he, hs⟩
            · simp at he
            · simp at he
            · injection he with hs2
              rw [← hs2] at hs
              simp [certRawMsgs, certOptErrMsgs] at hs

/-- Witness for C5: a parent without the CA flag is rejected; a CA parent
with CertSign never triggers the CA error. -/
theorem NewX509CertByCSR_ca_validation_witness :
    (∃ e, NewX509CertByCSR noSanClassifiers (fun _ => .ok csrLeaf) 0 ⟨3⟩
        ({ isCA := false, keyUsage := keyUsageCertSign } : Certificate)
        (.rsa [1]) [] [] = .error e) ∧
    NewX509CertByCSR noSanClassifiers (fun _ => .ok csrLeaf) 0 ⟨3⟩ caCertW
        (.rsa [1]) [] [] ≠ .error (.msg "ca is invalid to sign cert") :=
  ⟨(NewX509CertByCSR_ca_validation _ _ _ _ _ _ _ _).1 (Or.inl rfl),
   (NewX509CertByCSR_ca_validation _ _ _ _ _ _ _ _).2 rfl (by decide)⟩

/-- CSR option closures never fail. -/
theorem runX509CSROptions_ok (cl : SanClassifiers) :
    ∀ (opts : List X509CSROption) (o : X509CSROptionState),
    ∃ o2, runX509CSROptions cl o opts = .ok o2 := by
  intro opts
  induction opts with
  | nil => intro o; exact ⟨o, rfl⟩
  | cons f rest ih =>
    intro o
    cases f <;> exact ih _

/-- With no stored error, the CSR option application always succeeds. -/
theorem X509CSRapplyOpts_ok (cl : SanClassifiers) (o : X509CSROptionState)
    (opts : List X509CSROption) (hno : o.err = none) :
    ∃ o2, o.applyOpts cl opts = .ok o2 := by
  unfold X509CSROptionState.applyOpts
  rw [hno]
  exact runX509CSROptions_ok cl opts o

/-- There are no CRL option values. -/
theorem X509CRLOption_empty (opts : List X509CRLOption) : opts = [] := by
  cases opts with
  | nil => rfl
  | cons f rest => exact nomatch f

/-- C9: every signing operation first validates the private key: a key
outside the three supported families makes NewX509CSR, NewX509Cert,
NewX509CertByCSR and NewX509CRL return exactly the validation error whatever
the other arguments are, and a key of a supported family can never produce
that error. -/
theorem signing_ops_reject_unsupported_keys :
    (∀ prikey : PrivateKey, Privkey2Signer prikey = none →
      (∀ cl opts, NewX509CSR cl prikey opts =
          .error (.msg "not support this type of private key")) ∧
      (∀ cl now g opts, NewX509Cert cl now g prikey opts =
          .error (.msg "not support this type of private key")) ∧
      (∀ cl d2c now g ca csrDer opts,
        NewX509CertByCSR cl d2c now g ca prikey csrDer opts =
          .error (.msg "not support this type of private key")) ∧
      (∀ now ca sn rev opts, NewX509CRL now ca prikey sn rev opts =
          .error (.msg "not support this type of private key"))) ∧
    (∀ prikey sk : PrivateKey, Privkey2Signer prikey = some sk →
      (∀ cl opts, NewX509CSR cl prikey opts ≠
          .error (.msg "not support this type of private key")) ∧
      (∀ cl now g opts, NewX509Cert cl now g prikey opts ≠
          .error (.msg "not support this type of private key")) ∧
      (∀ cl d2c now g ca csrDer opts,
        NewX509CertByCSR cl d2c now g ca prikey csrDer opts ≠
          .error (.msg "not support this type of private key")) ∧
      (∀ now ca sn rev opts, NewX509CRL now ca prikey sn rev opts ≠
          .error (.msg "not support this type of private key"))) := by
  constructor
  · intro prikey h
    have hv : validPrikey prikey = .error (.msg "not support this type of private key") := by
      unfold validPrikey
      rw [h]
    refine ⟨?_, ?_, ?_, ?_⟩
    · intro cl opts
      unfold NewX509CSR
      rw [hv]
    · intro cl now g opts
      unfold NewX509Cert
      rw [hv]
    · intro cl d2c now g ca csrDer opts
      unfold NewX509CertByCSR
      rw [hv]
    · intro now ca sn rev opts
      unfold NewX509CRL
      rw [hv]
  · intro prikey sk h
    have hv : validPrikey prikey = .ok () := by
      unfold validPrikey
      rw [h]
    refine ⟨?_, ?_, ?_, ?_⟩
    · intro cl opts hbad
      unfold NewX509CSR at hbad
      rw [hv] at hbad
      obtain ⟨o2, ho2⟩ := X509CSRapplyOpts_ok cl {} opts rfl
      rw [ho2, h] at hbad
      simp at hbad
    · intro cl now g opts hbad
      rcases NewX509Cert_error_shape _ _ _ _ _ _ hbad with
        ⟨hn, _⟩ | ⟨ctx, cause, he⟩ | ⟨s, he, hs⟩
      · rw [h] at hn; exact absurd hn (by simp)
      · simp at he
      · injection he with hs2
        rw [← hs2] at hs
        simp [certRawMsgs, certOptErrMsgs] at hs
    · intro cl d2c now g ca csrDer opts hbad
      unfold NewX509CertByCSR at hbad
      split at hbad
      · rename_i heq
        rw [hv] at heq
        exact absurd heq (by simp)
      · split at hbad
        · simp at hbad
        · split at hbad
          · simp at hbad
          · split at hbad
            · simp at hbad
            · rcases NewX509Cert_error_shape _ _ _ _ _ _ hbad with
                ⟨hn, _⟩ | ⟨ctx, cause, he⟩ | ⟨s, he, hs⟩
              · rw [h] at hn; exact absurd hn (by simp)
              · simp at he
              · injection he with hs2
                rw [← hs2] at hs
                simp [certRawMsgs, certOptErrMsgs] at hs
    · intro now ca sn rev opts hbad
      have hopts := X509CRLOption_empty opts
      subst hopts
      unfold NewX509CRL at hbad
      rw [hv] at hbad
      cases sn with
      | none => simp at hbad
      | some n =>
        rw [h] at hbad
        simp [X509CRLOptionState.applyOpts] at hbad

/-- Witness for C9: an unsupported key is rejected with exactly the
validation error, and an RSA key never produces it. -/
theorem signing_ops_reject_unsupported_keys_witness :
    NewX509CSR noSanClassifiers (.other "dsa") [] =
      .error (.msg "not support this type of private key") ∧
    NewX509CRL 0 caCertW (.other "dsa") (some 1) [] [] =
      .error (.msg "not support this type of private key") ∧
    NewX509CSR noSanClassifiers (.rsa [1]) [] ≠
      .error (.msg "not support this type of private key") ∧
    NewX509CRL 0 caCertW (.rsa [1]) (some 1) [] [] ≠
      .error (.msg "not support this type of private key") :=
  ⟨(signing_ops_reject_unsupported_keys.1 (.other "dsa") rfl).1 noSanClassifiers [],
   (signing_ops_reject_unsupported_keys.1 (.other "dsa") rfl).2.2.2 0 caCertW (some 1) [] [],
   (signing_ops_reject_unsupported_keys.2 (.rsa [1]) (.rsa [1]) rfl).1 noSanClassifiers [],
   (signing_ops_reject_unsupported_keys.2 (.rsa [1]) (.rsa [1]) rfl).2.2.2 0 caCertW
     (some 1) [] []⟩

/-- A set bit survives OR-folding further values in. -/
theorem foldl_lor_testBit (i : Nat) :
    ∀ (us : List Nat) (x : Nat), x.testBit i = true →
    (us.foldl (fun acc u => acc ||| u) x).testBit i = true := by
  intro us
  induction us with
  | nil => intro x hx; exact hx
  | cons u rest ih =>
    intro x hx
    exact ih _ (by simp [Nat.testBit_or, hx])

/-- The CertSign and CRLSign bits of the key usage are bits 5 and 6. -/
theorem certSign_bits :
    (keyUsageCertSign ||| keyUsageCRLSign).testBit 5 = true ∧
    (keyUsageCertSign ||| keyUsageCRLSign).testBit 6 = true ∧
    keyUsageCRLSign.testBit 6 = true := by decide

/-- The CA flag and the two signing bits survive every certificate option. -/
theorem X509CertOption_run_preserves_ca (cl : SanClassifiers) (o : X509V3CertOptionState)
    (f : X509CertOption) (o2 : X509V3CertOptionState) (h : f.run cl o = .ok o2)
    (hca : o.sign.isCA = true) (h5 : o.sign.keyUsage.testBit 5 = true)
    (h6 : o.sign.keyUsage.testBit 6 = true) :
    o2.sign.isCA = true ∧ o2.sign.keyUsage.testBit 5 = true ∧
    o2.sign.keyUsage.testBit 6 = true := by
  cases f
  case withX509CertSeriaNumber sn =>
    cases sn
    · exact absurd h (by simp [X509CertOption.run])
    · simp only [X509CertOption.run] at h
      cases h
      exact ⟨hca, h5, h6⟩
  case withX509CertSerialNumGenerator gn =>
    cases gn
    · exact absurd h (by simp [X509CertOption.run])
    · simp only [X509CertOption.run] at h
      cases h
      exact ⟨hca, h5, h6⟩
  case withX509CertPubkey pk =>
    cases pk
    · exact absurd h (by simp [X509CertOption.run])
    · simp only [X509CertOption.run] at h
      cases h
      exact ⟨hca, h5, h6⟩
  case withX509CertKeyUsage us =>
    simp only [X509CertOption.run] at h
    cases h
    exact ⟨hca, foldl_lor_testBit 5 us _ h5, foldl_lor_testBit 6 us _ h6⟩
  case withX509CertIsCA =>
    simp only [X509CertOption.run] at h
    cases h
    exact ⟨rfl, by simp [Nat.testBit_or, certSign_bits.1],
           by simp [Nat.testBit_or, certSign_bits.2.1]⟩
  case withX509CertIsCRLCA =>
    simp only [X509CertOption.run] at h
    cases h
    exact ⟨rfl, by simp [Nat.testBit_or, h5], by simp [Nat.testBit_or, certSign_bits.2.2]⟩
  all_goals
    (simp only [X509CertOption.run] at h; cases h; exact ⟨hca, h5, h6⟩)

/-- Applying the is-CA certificate option sets the CA flag and both signing
bits. -/
theorem X509CertOption_isCA_establishes (cl : SanClassifiers) (o : X509V3CertOptionState)
    (o2 : X509V3CertOptionState) (h : X509CertOption.run cl o .withX509CertIsCA = .ok o2) :
    o2.sign.isCA = true ∧ o2.sign.keyUsage.testBit 5 = true ∧
    o2.sign.keyUsage.testBit 6 = true := by
  simp only [X509CertOption.run] at h
  cases h
  exact ⟨rfl, by simp [Nat.testBit_or, certSign_bits.1],
         by simp [Nat.testBit_or, certSign_bits.2.1]⟩

/-- The CA flag and signing bits survive the certificate option loop. -/
theorem runX509CertOptions_preserves_ca (cl : SanClassifiers) :
    ∀ (opts : List X509CertOption) (o o2 : X509V3CertOptionState),
    runX509CertOptions cl o opts = .ok o2 →
    o.sign.isCA = true → o.sign.keyUsage.testBit 5 = true →
    o.sign.keyUsage.testBit 6 = true →
    o2.sign.isCA = true ∧ o2.sign.keyUsage.testBit 5 = true ∧
    o2.sign.keyUsage.testBit 6 = true := by
  intro opts
  induction opts with
  | nil =>
    intro o o2 h hca h5 h6
    simp only [runX509CertOptions] at h
    cases h
    exact ⟨hca, h5, h6⟩
  | cons f rest ih =>
    intro o o2 h hca h5 h6
    unfold runX509CertOptions at h
    split at h
    · exact absurd h (by simp)
    · rename_i o3 heq
      obtain ⟨p1, p2, p3⟩ := X509CertOption_run_preserves_ca _ _ _ _ heq hca h5 h6
      exact ih _ _ h p1 p2 p3

/-- If the is-CA option occurs anywhere in the list, the option loop ends
with the CA flag and both signing bits set. -/
theorem runX509CertOptions_mem_isCA (cl : SanClassifiers) :
    ∀ (opts : List X509CertOption) (o o2 : X509V3CertOptionState),
    X509CertOption.withX509CertIsCA ∈ opts →
    runX509CertOptions cl o opts = .ok o2 →
    o2.sign.isCA = true ∧ o2.sign.keyUsage.testBit 5 = true ∧
    o2.sign.keyUsage.testBit 6 = true := by
  intro opts
  induction opts with
  | nil => intro o o2 hm; exact absurd hm (by simp)
  | cons f rest ih =>
    intro o o2 hm h
    unfold runX509CertOptions at h
    split at h
    · exact absurd h (by simp)
    · rename_i o3 heq
      rcases List.mem_cons.mp hm with hf | hrest
      · subst hf
        obtain ⟨p1, p2, p3⟩ := X509CertOption_isCA_establishes _ _ _ heq
        exact runX509CertOptions_preserves_ca cl rest o3 o2 h p1 p2 p3
      · exact ih _ _ hrest h

/-- If the is-CA option occurs in the applied list, the final option state
has the CA flag and both signing bits set. -/
theorem X509V3applyOpts_mem_isCA (cl : SanClassifiers) (o : X509V3CertOptionState)
    (opts : List X509CertOption) (o2 : X509V3CertOptionState) (hno : o.csr.err = none)
    (hm : X509CertOption.withX509CertIsCA ∈ opts)
    (h : o.applyOpts cl opts = .ok o2) :
    o2.sign.isCA = true ∧ o2.sign.keyUsage.testBit 5 = true ∧
    o2.sign.keyUsage.testBit 6 = true := by
  unfold X509V3CertOptionState.applyOpts at h
  split at h
  · rename_i e heq
    rw [hno] at heq
    exact absurd heq (by simp)
  · split at h
    · exact absurd h (by simp)
    · rename_i o3 heq
      obtain ⟨p1, p2, p3⟩ := runX509CertOptions_mem_isCA cl opts o o3 hm heq
      split at h
      · split at h
        · exact absurd h (by simp)
        · cases h
          exact ⟨p1, p2, p3⟩
      · cases h
        exact ⟨p1, p2, p3⟩

/-- The CA flag survives every sign-CSR option. -/
theorem SignCSROption_run_isCA (o : SignCSROptionState) (f : SignCSROption)
    (o2 : SignCSROptionState) (h : f.run o = .ok o2) (hca : o.isCA = true) :
    o2.isCA = true := by
  cases f
  case withX509SignCSRSeriaNumber sn =>
    cases sn
    · exact absurd h (by simp [SignCSROption.run])
    · simp only [SignCSROption.run] at h
      cases h
      exact hca
  all_goals (simp only [SignCSROption.run] at h; cases h; first | exact hca | rfl)

/-- Applying the is-CA sign option sets the CA flag. -/
theorem SignCSROption_isCA_establishes (o o2 : SignCSROptionState)
    (h : SignCSROption.run o .withX509SignCSRIsCA = .ok o2) : o2.isCA = true := by
  simp only [SignCSROption.run] at h
  cases h
  rfl

/-- The CA flag survives the sign option loop. -/
theorem runSignCSROptions_preserves_isCA :
    ∀ (opts : List SignCSROption) (o o2 : SignCSROptionState),
    runSignCSROptions o opts = .ok o2 → o.isCA = true → o2.isCA = true := by
  intro opts
  induction opts with
  | nil =>
    intro o o2 h hca
    simp only [runSignCSROptions] at h
    cases h
    exact hca
  | cons f rest ih =>
    intro o o2 h hca
    unfold runSignCSROptions at h
    split at h
    · exact absurd h (by simp)
    · rename_i o3 heq
      exact ih _ _ h (SignCSROption_run_isCA _ _ _ heq hca)

/-- If the is-CA sign option occurs in the list, the applied sign state has
the CA flag set. -/
theorem signApplyOpts_mem_isCA (o : SignCSROptionState) (opts : List SignCSROption)
    (o2 : SignCSROptionState) (hm : SignCSROption.withX509SignCSRIsCA ∈ opts)
    (h : o.applyOpts opts = .ok o2) : o2.isCA = true := by
  have main : ∀ (opts : List SignCSROption) (o o2 : SignCSROptionState),
      SignCSROption.withX509SignCSRIsCA ∈ opts →
      runSignCSROptions o opts = .ok o2 → o2.isCA = true := by
    intro opts
    induction opts with
    | nil => intro o o2 hm2; exact absurd hm2 (by simp)
    | cons f rest ih =>
      intro o o2 hm2 h2
      unfold runSignCSROptions at h2
      split at h2
      · exact absurd h2 (by simp)
      · rename_i o3 heq
        rcases List.mem_cons.mp hm2 with hf | hrest
        · subst hf
          exact runSignCSROptions_preserves_isCA rest o3 o2 h2
            (SignCSROption_isCA_establishes _ _ heq)
        · exact ih _ _ hrest h2
  unfold SignCSROptionState.applyOpts at h
  split at h
  · exact absurd h (by simp)
  · rename_i o3 heq
    have hca := main opts o o3 hm heq
    split at h
    · split at h
      · exact absurd h (by simp)
      · cases h
        exact hca
    · cases h
      exact hca

/-- C10: applying the is-CA option makes every issued certificate a CA
certificate whose key usage contains both the certificate-signing bit
(bit 5) and the CRL-signing bit (bit 6), even when the caller never adds
them explicitly: first for NewX509Cert with WithX509CertIsCA among the
options, then for NewX509CertByCSR with WithX509SignCSRIsCA among the
signing options. -/
theorem isCA_option_forces_signing_usage :
    (∀ (cl : SanClassifiers) (now : Int) (g : SerialGen) (prikey : PrivateKey)
        (opts : List X509CertOption) (cc : CreatedCert),
      X509CertOption.withX509CertIsCA ∈ opts →
      NewX509Cert cl now g prikey opts = .ok cc →
      cc.tpl.isCA = true ∧ cc.tpl.keyUsage.testBit 5 = true ∧
      cc.tpl.keyUsage.testBit 6 = true) ∧
    (∀ (cl : SanClassifiers) (d2c : List Nat → Except GoErr CSR) (now : Int)
        (g : SerialGen) (ca : Certificate) (prikey : PrivateKey) (csrDer : List Nat)
        (opts : List SignCSROption) (cc : CreatedCert),
      SignCSROption.withX509SignCSRIsCA ∈ opts →
      NewX509CertByCSR cl d2c now g ca prikey csrDer opts = .ok cc →
      cc.tpl.isCA = true ∧ cc.tpl.keyUsage.testBit 5 = true ∧
      cc.tpl.keyUsage.testBit 6 = true) := by
  have main : ∀ (cl : SanClassifiers) (now : Int) (g : SerialGen) (prikey : PrivateKey)
      (opts : List X509CertOption) (cc : CreatedCert),
      X509CertOption.withX509CertIsCA ∈ opts →
      NewX509Cert cl now g prikey opts = .ok cc →
      cc.tpl.isCA = true ∧ cc.tpl.keyUsage.testBit 5 = true ∧
      cc.tpl.keyUsage.testBit 6 = true := by
    intro cl now g prikey opts cc hm h
    obtain ⟨opt, hopt, _, _, _, _, _, hca, hku, _, _⟩ := NewX509Cert_ok_shape _ _ _ _ _ _ h
    obtain ⟨p1, p2, p3⟩ := X509V3applyOpts_mem_isCA _ _ _ _ rfl hm hopt
    rw [hca, hku]
    exact ⟨p1, p2, p3⟩
  refine ⟨main, ?_⟩
  intro cl d2c now g ca prikey csrDer opts cc hm h
  unfold NewX509CertByCSR at h
  split at h
  · exact absurd h (by simp)
  · split at h
    · exact absurd h (by simp)
    · rename_i opt hopt
      split at h
      · exact absurd h (by simp)
      · split at h
        · exact absurd h (by simp)
        · rename_i csr hcsr
          have hca : opt.isCA = true := signApplyOpts_mem_isCA _ _ _ hm hopt
          refine main _ _ _ _ _ _ ?_ h
          simp [certByCSROpts, hca]

/-- Witness for C10: a concrete build with only the is-CA option yields a CA
certificate with the CertSign and CRLSign bits set. -/
theorem isCA_option_forces_signing_usage_witness :
    ∃ cc, NewX509Cert noSanClassifiers 0 ⟨1⟩ (.rsa [1])
        [X509CertOption.withX509CertIsCA] = .ok cc ∧
      cc.tpl.isCA = true ∧ cc.tpl.keyUsage.testBit 5 = true ∧
      cc.tpl.keyUsage.testBit 6 = true := by
  obtain ⟨cc, hcc⟩ : ∃ cc, NewX509Cert noSanClassifiers 0 ⟨1⟩ (.rsa [1])
      [X509CertOption.withX509CertIsCA] = .ok cc := ⟨_, rfl⟩
  exact ⟨cc, hcc, isCA_option_forces_signing_usage.1 _ _ _ _ _ cc
    (List.mem_singleton.mpr rfl) hcc⟩
